import Mathlib

/-!
Verification development for the FreeLytix analytics dashboard (`app.py`).

The repository's report generator is embedded shallowly:

* the pandas dataframe `df` becomes `Dataset`, a column-oriented table: a
  list of named columns of `Value`s (numbers are modelled as rationals);
* the summary metrics of the `home` route (`df["Category"].nunique()`,
  `df["Total_Earning"].sum()`, `df["Rating"].mean().round(2)`) become
  `total_users`, `total_earnings` and `avg_rating`;
* the `static` plot folder becomes a list of named files, and
  `generate_plots` becomes a function that first emits a `FsOp.remove` for
  every `.png` file (lines 100-102 of `app.py`) and then one `FsOp.write`
  per chart block, in source order; a chart block whose column access would
  raise `KeyError` aborts the whole batch, exactly as an unhandled Python
  exception does;
* the `/charts` route (`eda`) and `/` route (`home`) become functions on a
  `ProcState` holding the dataframe and the plot folder; a request that
  dies with an unhandled exception is modelled as `none`.

Column layout, filenames, the catalog order and the control flow are
transcribed from `app.py`; the numpy draws made under the fixed seed 42 are
abstracted as a deterministic function of the row index (the claims checked
here depend only on determinism, the column list and the row count, never
on the drawn values).
-/

/-- A cell of the tabular dataset: pandas columns in `app.py` hold either
strings or numbers; numbers are modelled as rationals. -/
inductive Value where
  | str (s : String)
  | num (q : ℚ)
deriving DecidableEq

/-- The in-memory table, column-oriented as a pandas dataframe is: a list
of named columns, each holding its values down the rows. This embeds the
dataframe `df` of `app.py`. -/
structure Dataset where
  cols : List (String × List Value)
deriving DecidableEq

/-- The column names, in order. -/
def Dataset.columns (d : Dataset) : List String := d.cols.map (fun p => p.1)

/-- Column access `df[c]`: `none` models the `KeyError` raised when the
column is absent, otherwise the values of the column down the rows. -/
def Dataset.col (d : Dataset) (c : String) : Option (List Value) :=
  d.cols.lookup c

/-- The number of rows: the length of the first column (0 for a dataset
with no columns). -/
def Dataset.nRows (d : Dataset) : ℕ :=
  ((d.cols.head?).map (fun p => p.2.length)).getD 0

/-- Numeric reading of a cell (string cells never feed numeric metrics). -/
def Value.toQ : Value → ℚ
  | .str _ => 0
  | .num q => q

/-- `Series.nunique()`: the number of distinct values in a column. -/
def nuniqueVals (vs : List Value) : ℕ := vs.dedup.length

/-- `total_users = df["Category"].nunique()` (line 613 of `app.py`). -/
def total_users (d : Dataset) : Option ℕ := (d.col "Category").map nuniqueVals

/-- `total_earnings = df["Total_Earning"].sum()` (line 614 of `app.py`). -/
def total_earnings (d : Dataset) : Option ℚ :=
  (d.col "Total_Earning").map (fun vs => (vs.map Value.toQ).sum)

/-- `Series.mean()`: sum divided by length. pandas yields `NaN` on an empty
series; no claim checked here evaluates the mean of an empty column. -/
def listMean (l : List ℚ) : ℚ := l.sum / l.length

/-- Round to the nearest integer, ties to the even integer, as
`numpy.round` does. -/
def roundHalfEven (x : ℚ) : ℤ :=
  let f := ⌊x⌋
  let r := x - f
  if r < 1/2 then f
  else if 1/2 < r then f + 1
  else if f % 2 = 0 then f else f + 1

/-- `.round(2)`: round to two decimal places. -/
def round2 (x : ℚ) : ℚ := (roundHalfEven (x * 100) : ℚ) / 100

/-- `avg_rating = df["Rating"].mean().round(2)` (line 615 of `app.py`). -/
def avg_rating (d : Dataset) : Option ℚ :=
  (d.col "Rating").map (fun vs => round2 (listMean (vs.map Value.toQ)))

/-- The three-row dataset of the spec's end-to-end metrics scenario. -/
def d5 : Dataset :=
  ⟨[("Category", [Value.str "Writing", Value.str "Writing", Value.str "Design"]),
    ("Rating", [Value.num 4, Value.num 5, Value.num (7/2)]),
    ("Total_Earning", [Value.num 100, Value.num 200, Value.num 50])]⟩

/-- A dataset holding only a `Category` column with the given values, used
to study the distinct-category metric in isolation. -/
def catDataset (cs : List String) : Dataset :=
  ⟨[("Category", cs.map Value.str)]⟩

/-- `categories` of the sample-data block (line 73 of `app.py`). -/
def categories : List String :=
  ["Graphic Design", "Digital Marketing", "Writing", "Video Editing", "Programming"]

/-- `genders` of the sample-data block (line 74 of `app.py`). -/
def genders : List String := ["Male", "Female"]

/-- `languages` of the sample-data block (line 75 of `app.py`). -/
def languages : List String := ["English", "Spanish", "French", "German", "Hindi"]

/-- The column names of the synthetic sample dataset, in the order of the
`sample_data` dictionary (lines 77-86 of `app.py`). Note: `Level` and
`Review_Count` are not among them. -/
def sampleColumns : List String :=
  ["Category", "Rating", "Total_Earning", "Gender", "Language", "Price",
   "Orders_Completed", "Response_Time"]

/-- The `sample_data` dictionary (lines 77-86 of `app.py`): one array of
`sample_size` synthetic values per column. The numpy draws made after
`np.random.seed(42)` are abstracted as a fixed deterministic function of
the row index; the claims checked here use only that the generation is
deterministic, which columns exist and how many rows there are, never the
drawn values themselves. -/
def sample_data (sample_size : ℕ) : List (String × List Value) :=
  [("Category", (List.range sample_size).map
      (fun i => Value.str (categories.getD (i % 5) ""))),
   ("Rating", (List.range sample_size).map
      (fun i => Value.num (((35 + (i * 7) % 16 : ℕ) : ℚ) / 10))),
   ("Total_Earning", (List.range sample_size).map
      (fun i => Value.num (((i * 13) % 5000 : ℕ) : ℚ))),
   ("Gender", (List.range sample_size).map
      (fun i => Value.str (genders.getD (i % 2) ""))),
   ("Language", (List.range sample_size).map
      (fun i => Value.str (languages.getD (i % 5) ""))),
   ("Price", (List.range sample_size).map
      (fun i => Value.num (((5 + (i * 11) % 495 : ℕ) : ℚ)))),
   ("Orders_Completed", (List.range sample_size).map
      (fun i => Value.num (((i * 3) % 60 : ℕ) : ℚ))),
   ("Response_Time", (List.range sample_size).map
      (fun i => Value.num ((((i * 17) % 200 : ℕ) : ℚ) / 10)))]

/-- The synthetic sample dataset built when `data/fiver_clean.csv` is
absent (lines 68-88 of `app.py`); `sample_size` is 1000 in the source. -/
def sampleDataset (sample_size : ℕ) : Dataset := ⟨sample_data sample_size⟩

/-- Process start (lines 66-92 of `app.py`): if the backing file is absent
(`none`), the synthetic dataset is generated and persisted to the same
path; otherwise the file is read and left as it is. The result is the
in-memory `df` together with the file contents after startup. -/
def startupLoad (sample_size : ℕ) (file : Option Dataset) : Dataset × Option Dataset :=
  match file with
  | some d => (d, some d)
  | none => (sampleDataset sample_size, some (sampleDataset sample_size))

/-- One chart block of `generate_plots`: the filename it saves to and the
columns it reads from the dataframe (a `sns.pairplot(df)` or
`df.corr(numeric_only=True)` block reads no specific column). -/
structure Recipe where
  output : String
  reqCols : List String
deriving DecidableEq

/-- The 25 chart blocks of `generate_plots` (lines 109-381 of `app.py`),
in source order, with the columns each block accesses. -/
def catalog : List Recipe :=
  [⟨"pairplot.png", []⟩,
   ⟨"correlation_heatmap.png", []⟩,
   ⟨"earnings_by_rating.png", ["Rating", "Total_Earning"]⟩,
   ⟨"avg_price_gender.png", ["Gender", "Price"]⟩,
   ⟨"avg_reviews_gender.png", ["Gender", "Review_Count"]⟩,
   ⟨"total_earnings_gender.png", ["Gender", "Total_Earning"]⟩,
   ⟨"avg_rating_level.png", ["Level", "Rating"]⟩,
   ⟨"avg_reviews_level.png", ["Level", "Review_Count"]⟩,
   ⟨"reviews_by_rating.png", ["Rating", "Review_Count"]⟩,
   ⟨"price_boxplot_level.png", ["Level", "Price"]⟩,
   ⟨"earnings_boxplot_gender.png", ["Total_Earning", "Gender"]⟩,
   ⟨"reviews_boxplot_gender.png", ["Review_Count", "Gender"]⟩,
   ⟨"price_boxplot_gender.png", ["Price", "Gender"]⟩,
   ⟨"ratings_by_category.png", ["Category", "Rating"]⟩,
   ⟨"avg_rating_category.png", ["Category", "Rating"]⟩,
   ⟨"avg_earnings_category.png", ["Category", "Total_Earning"]⟩,
   ⟨"max_earnings_category.png", ["Category", "Total_Earning"]⟩,
   ⟨"total_earnings_category.png", ["Category", "Total_Earning"]⟩,
   ⟨"total_reviews_category.png", ["Category", "Review_Count"]⟩,
   ⟨"avg_price_category.png", ["Category", "Price"]⟩,
   ⟨"category_gender_count.png", ["Category", "Gender"]⟩,
   ⟨"price_category_gender.png", ["Category", "Price", "Gender"]⟩,
   ⟨"price_level_gender.png", ["Level", "Price", "Gender"]⟩,
   ⟨"review_count_kde.png", ["Review_Count"]⟩,
   ⟨"level_distribution.png", ["Level"]⟩]

/-- The filenames of the catalog, in source order. -/
def catalogNames : List String := catalog.map (fun r => r.output)

/-- The union of the catalog's required columns: every column some chart
block reads from the dataframe. -/
def requiredColumns : List String :=
  ["Rating", "Total_Earning", "Gender", "Price", "Review_Count", "Level", "Category"]

/-- A dataset offering every column the catalog needs. -/
@[reducible] def validDataset (d : Dataset) : Prop :=
  ∀ c ∈ requiredColumns, c ∈ d.columns

/-- The content of a file in the plot folder: either a plot rendered from
the dataframe by a named chart block, or anything else. -/
inductive Content where
  | plot (recipe : String) (data : Dataset)
  | other (payload : String)
deriving DecidableEq

/-- A file of the plot folder. -/
structure PlotFile where
  name : String
  content : Content
deriving DecidableEq

/-- A file-system operation issued by `generate_plots`. -/
inductive FsOp where
  | remove (name : String)
  | write (name : String) (content : Content)
deriving DecidableEq

/-- Python's `str.endswith('.png')`, modelled on the character list (the
byte-level `String` primitives do not reduce). -/
def endsWithPng (n : String) : Bool :=
  (n.data.reverse.take 4) == (".png".data.reverse)

/-- `FsOp.write` recogniser. -/
def FsOp.isWrite : FsOp → Bool
  | .remove _ => false
  | .write _ _ => true

/-- `plt.savefig(path)`: overwrite the file if it exists, create it
otherwise. -/
def writeFile (fs : List PlotFile) (n : String) (c : Content) : List PlotFile :=
  if fs.any (fun f => f.name == n) then
    fs.map (fun f => if f.name == n then ⟨n, c⟩ else f)
  else fs ++ [⟨n, c⟩]

/-- Effect of one operation on the plot folder. -/
def applyOp (fs : List PlotFile) : FsOp → List PlotFile
  | .remove n => fs.filter (fun f => f.name != n)
  | .write n c => writeFile fs n c

/-- Effect of an operation sequence on the plot folder. -/
def applyOps (fs : List PlotFile) (ops : List FsOp) : List PlotFile :=
  ops.foldl applyOp fs

/-- Whether the dataframe offers every column a chart block reads. -/
def hasCols (d : Dataset) (cs : List String) : Bool :=
  cs.all (fun c => d.columns.contains c)

/-- The chart blocks run in source order; each block whose columns are all
present writes its plot, while the first block touching a missing column
raises `KeyError`, which `generate_plots` does not catch: no further block
runs, and the failing block's name is recorded as the error. -/
def recipeOps (d : Dataset) : List Recipe → List FsOp × Option String
  | [] => ([], none)
  | r :: rs =>
    if hasCols d r.reqCols then
      let rest := recipeOps d rs
      (FsOp.write r.output (Content.plot r.output d) :: rest.1, rest.2)
    else ([], some r.output)

/-- Lines 100-102 of `app.py`: every file of the plot folder whose name
ends in `.png` is removed before any chart is drawn. -/
def clearOps (fs : List PlotFile) : List FsOp :=
  (fs.filter (fun f => endsWithPng f.name)).map (fun f => FsOp.remove f.name)

/-- The full operation trace of one `generate_plots` call, and the error of
the first failing chart block, if any. -/
def generateOps (d : Dataset) (fs : List PlotFile) : List FsOp × Option String :=
  let w := recipeOps d catalog
  (clearOps fs ++ w.1, w.2)

/-- Outcome of a `generate_plots` call: the plot folder afterwards, the
returned value (`len(os.listdir(PLOT_FOLDER))`, counting every file of the
folder whatever its extension — line 384 of `app.py`), and the unhandled
error, if any. When the call raises, nothing is returned but the files
written before the failure stay on disk. -/
structure GenResult where
  fs : List PlotFile
  ret : Option ℕ
  err : Option String
deriving DecidableEq

/-- `generate_plots(df)` (lines 97-384 of `app.py`) acting on the plot
folder. -/
def generate_plots (d : Dataset) (fs : List PlotFile) : GenResult :=
  let w := generateOps d fs
  let fs2 := applyOps fs w.1
  { fs := fs2, ret := if w.2.isNone then some fs2.length else none, err := w.2 }

/-- Lexicographic comparison of character lists by code point. -/
def chListLe : List Char → List Char → Bool
  | [], _ => true
  | _ :: _, [] => false
  | a :: as, b :: bs =>
    if a.val < b.val then true else if b.val < a.val then false else chListLe as bs

/-- Python's string comparison: lexicographic by code point. -/
def strLe (a b : String) : Bool := chListLe a.data b.data

/-- Insert into a sorted list of strings. -/
def insertSorted (x : String) : List String → List String
  | [] => [x]
  | y :: ys => if strLe x y then x :: y :: ys else y :: insertSorted x ys

/-- Python's `sorted()` on filenames, modelled as insertion sort. -/
def sortStrings : List String → List String
  | [] => []
  | x :: xs => insertSorted x (sortStrings xs)

/-- Process-wide state: the dataframe loaded at startup and the plot
folder. -/
structure ProcState where
  df : Dataset
  fs : List PlotFile
deriving DecidableEq

/-- The `/charts` route `eda` (lines 623-639 of `app.py`): list the `.png`
files, sorted; if none, run `generate_plots` and list again; otherwise skip
generation and report the existing files. `none` models the request dying
on the unhandled exception of a failed generation. -/
def eda (s : ProcState) : Option (ProcState × List String × ℕ) :=
  let plots := sortStrings ((s.fs.filter (fun f => endsWithPng f.name)).map
    (fun f => f.name))
  if plots.isEmpty then
    let g := generate_plots s.df s.fs
    match g.ret with
    | none => none
    | some num_plots =>
      let plots2 := sortStrings ((g.fs.filter (fun f => endsWithPng f.name)).map
        (fun f => f.name))
      some ({ s with fs := g.fs }, plots2, num_plots)
  else
    some (s, plots, plots.length)

/-- The `/` route `home` (lines 606-621 of `app.py`): the three summary
metrics, recomputed on every request; `none` models the `KeyError` of a
missing column. -/
def home (s : ProcState) : Option (ProcState × ℕ × ℚ × ℚ) :=
  match total_users s.df, total_earnings s.df, avg_rating s.df with
  | some u, some e, some r => some (s, u, e, r)
  | _, _, _ => none

/-- The files written by the given chart blocks for the given dataframe. -/
def mkFiles (d : Dataset) (rs : List Recipe) : List PlotFile :=
  rs.map (fun r => ⟨r.output, Content.plot r.output d⟩)

/-- A minimal dataset carrying exactly the catalog's required columns. -/
def dValid : Dataset := ⟨requiredColumns.map (fun c => (c, []))⟩

/-- A dataset carrying every required column except `Level`. -/
def dNoLevel : Dataset :=
  ⟨["Rating", "Total_Earning", "Gender", "Price", "Review_Count", "Category"].map
    (fun c => (c, []))⟩

/-! ### Computed facts about the catalog -/

/-- The 25 output filenames are pairwise distinct. -/
theorem catalogNames_nodup : catalogNames.Nodup := by decide

/-- Every catalog filename ends in `.png`. -/
theorem catalogNames_png : ∀ n ∈ catalogNames, endsWithPng n = true := by decide

/-- Every column a chart block reads is listed in `requiredColumns`. -/
theorem catalog_reqCols_sub :
    catalog.all (fun r => r.reqCols.all (fun c => requiredColumns.contains c)) = true := by
  decide

/-- Every required column is read by at least one chart block. -/
theorem catalog_covers :
    requiredColumns.all (fun c => catalog.any (fun r => r.reqCols.contains c)) = true := by
  decide

/-- There are 25 chart blocks. -/
theorem catalog_length : catalog.length = 25 := rfl

/-- There are 25 output filenames. -/
theorem catalogNames_length : catalogNames.length = 25 := rfl

/-- The output of a catalog recipe is a catalog filename. -/
theorem mem_catalogNames {r : Recipe} (hr : r ∈ catalog) : r.output ∈ catalogNames :=
  List.mem_map_of_mem _ hr

/-- On a dataset with every required column, every chart block finds its
columns. -/
theorem hasCols_of_valid {d : Dataset} (hv : validDataset d) {r : Recipe}
    (hr : r ∈ catalog) : hasCols d r.reqCols = true := by
  have hsub := List.all_eq_true.mp catalog_reqCols_sub r hr
  unfold hasCols
  rw [List.all_eq_true]
  intro c hc
  have hc1 : c ∈ requiredColumns := by
    have := List.all_eq_true.mp hsub c hc
    simpa [List.contains, List.elem_iff] using this
  have hc2 : c ∈ d.columns := hv c hc1
  simpa [List.contains, List.elem_iff] using hc2

/-! ### Structure of one `generate_plots` run -/

/-- `takeWhile` only looks at members of the list. -/
theorem takeWhile_congr {α : Type} {p q : α → Bool} :
    ∀ {l : List α}, (∀ x ∈ l, p x = q x) → l.takeWhile p = l.takeWhile q := by
  intro l
  induction l with
  | nil => intro _; rfl
  | cons x xs ih =>
    intro h
    rw [List.takeWhile_cons, List.takeWhile_cons, h x (List.mem_cons_self x xs),
      ih (fun y hy => h y (List.mem_cons_of_mem x hy))]

/-- `dropWhile` only looks at members of the list. -/
theorem dropWhile_congr {α : Type} {p q : α → Bool} :
    ∀ {l : List α}, (∀ x ∈ l, p x = q x) → l.dropWhile p = l.dropWhile q := by
  intro l
  induction l with
  | nil => intro _; rfl
  | cons x xs ih =>
    intro h
    rw [List.dropWhile_cons, List.dropWhile_cons, h x (List.mem_cons_self x xs),
      ih (fun y hy => h y (List.mem_cons_of_mem x hy))]

/-- The chart loop writes one plot per block up to the first block whose
columns are missing, and the error is that first failing block. -/
theorem recipeOps_eq (d : Dataset) (rs : List Recipe) :
    recipeOps d rs =
      ((rs.takeWhile (fun r => hasCols d r.reqCols)).map
          (fun r => FsOp.write r.output (Content.plot r.output d)),
        ((rs.dropWhile (fun r => hasCols d r.reqCols)).head?).map (fun r => r.output)) := by
  induction rs with
  | nil => rfl
  | cons r rs ih =>
    cases h : hasCols d r.reqCols with
    | true => simp [recipeOps, h, ih, List.takeWhile_cons, List.dropWhile_cons]
    | false => simp [recipeOps, h, List.takeWhile_cons, List.dropWhile_cons]

/-- Applying a batch of removals filters the named files out. -/
theorem applyOps_removes (ns : List String) :
    ∀ fs : List PlotFile, applyOps fs (ns.map FsOp.remove) =
      fs.filter (fun f => !(ns.contains f.name)) := by
  induction ns with
  | nil => intro fs; simp [applyOps]
  | cons n ns ih =>
    intro fs
    show applyOps (applyOp fs (FsOp.remove n)) (ns.map FsOp.remove) = _
    rw [ih, applyOp, List.filter_filter]
    apply List.filter_congr
    intro f _
    show (!(ns.contains f.name) && (f.name != n)) = !((n :: ns).contains f.name)
    cases h1 : f.name == n with
    | true => simp [List.contains, List.elem, h1, bne]
    | false => simp [List.contains, List.elem, h1, bne]

/-- Writing a batch of fresh, pairwise-distinct filenames appends the new
files in order. -/
theorem applyOps_writes (d : Dataset) :
    ∀ (rs : List Recipe) (fs : List PlotFile),
      (∀ r ∈ rs, ∀ f ∈ fs, f.name ≠ r.output) →
      (rs.map (fun r => r.output)).Nodup →
      applyOps fs (rs.map (fun r => FsOp.write r.output (Content.plot r.output d))) =
        fs ++ mkFiles d rs := by
  intro rs
  induction rs with
  | nil => intro fs _ _; simp [applyOps, mkFiles]
  | cons r rs ih =>
    intro fs hfresh hnodup
    have hany : fs.any (fun f => f.name == r.output) = false := by
      rw [List.any_eq_false]
      intro f hf
      simp only [beq_iff_eq]
      exact hfresh r (List.mem_cons_self r rs) f hf
    have step : applyOp fs (FsOp.write r.output (Content.plot r.output d)) =
        fs ++ [⟨r.output, Content.plot r.output d⟩] := by
      simp [applyOp, writeFile, hany]
    have hout : r.output ∉ rs.map (fun s => s.output) := (List.nodup_cons.mp hnodup).1
    have hfresh2 : ∀ s ∈ rs, ∀ f ∈ fs ++ [(⟨r.output, Content.plot r.output d⟩ : PlotFile)],
        f.name ≠ s.output := by
      intro s hs f hf
      rcases List.mem_append.mp hf with hf1 | hf1
      · exact hfresh s (List.mem_cons_of_mem r hs) f hf1
      · rw [List.mem_singleton.mp hf1]
        show r.output ≠ s.output
        intro heq
        exact hout (by rw [heq]; exact List.mem_map_of_mem (fun s => s.output) hs)
    calc applyOps fs ((r :: rs).map (fun s => FsOp.write s.output (Content.plot s.output d)))
        = applyOps (fs ++ [⟨r.output, Content.plot r.output d⟩])
            (rs.map (fun s => FsOp.write s.output (Content.plot s.output d))) := by
          show applyOps (applyOp fs _) _ = _
          rw [step]
      _ = (fs ++ [⟨r.output, Content.plot r.output d⟩]) ++ mkFiles d rs :=
          ih _ hfresh2 (List.nodup_cons.mp hnodup).2
      _ = fs ++ mkFiles d (r :: rs) := by simp [mkFiles]

/-- The filenames of the files a batch of blocks writes. -/
theorem mkFiles_names (d : Dataset) (rs : List Recipe) :
    (mkFiles d rs).map PlotFile.name = rs.map (fun r => r.output) := by
  simp only [mkFiles, List.map_map]
  rfl

/-- Every file written for the full catalog is a `.png`. -/
theorem mkFiles_catalog_png (d : Dataset) :
    (mkFiles d catalog).filter (fun f => endsWithPng f.name) = mkFiles d catalog := by
  rw [List.filter_eq_self]
  intro f hf
  rw [mkFiles, List.mem_map] at hf
  obtain ⟨r, hr, rfl⟩ := hf
  exact catalogNames_png r.output (mem_catalogNames hr)

/-- Lines 100-102 of `app.py` on a folder with pairwise-distinct filenames:
exactly the `.png` files disappear. -/
theorem applyOps_clear (fs : List PlotFile) (h : (fs.map PlotFile.name).Nodup) :
    applyOps fs (clearOps fs) = fs.filter (fun f => !(endsWithPng f.name)) := by
  have hmap : clearOps fs =
      ((fs.filter (fun f => endsWithPng f.name)).map PlotFile.name).map FsOp.remove := by
    rw [clearOps, List.map_map]
    rfl
  rw [hmap, applyOps_removes]
  apply List.filter_congr
  intro f hf
  cases hp : endsWithPng f.name with
  | true =>
    have : f.name ∈ (fs.filter (fun g => endsWithPng g.name)).map PlotFile.name :=
      List.mem_map_of_mem _ (List.mem_filter.mpr ⟨hf, hp⟩)
    simp [List.contains, List.elem_iff, this]
  | false =>
    have : f.name ∉ (fs.filter (fun g => endsWithPng g.name)).map PlotFile.name := by
      intro hmem
      rw [List.mem_map] at hmem
      obtain ⟨g, hg, hgf⟩ := hmem
      have hgfs := (List.mem_filter.mp hg).1
      have hgp := (List.mem_filter.mp hg).2
      have : g = f := List.inj_on_of_nodup_map h hgfs hf hgf
      rw [this] at hgp
      rw [hgp] at hp
      exact Bool.true_eq_false.mp hp
    simp [List.contains, List.elem_iff, this]

/-- Any catalog prefix writes to names distinct from every non-`.png` file. -/
theorem fresh_of_nonpng {rs : List Recipe} (hsub : rs.Sublist catalog)
    {fs : List PlotFile} (hnp : ∀ f ∈ fs, endsWithPng f.name = false) :
    ∀ r ∈ rs, ∀ f ∈ fs, f.name ≠ r.output := by
  intro r hr f hf heq
  have h1 : endsWithPng r.output = true :=
    catalogNames_png r.output (mem_catalogNames (hsub.subset hr))
  have h2 := hnp f hf
  rw [heq, h1] at h2
  exact Bool.true_eq_false.mp h2

/-- Any catalog sublist has pairwise-distinct output names. -/
theorem nodup_sublist_names {rs : List Recipe} (hsub : rs.Sublist catalog) :
    (rs.map (fun r => r.output)).Nodup :=
  (hsub.map (fun r => r.output)).nodup
    (show (catalog.map (fun r => r.output)).Nodup from catalogNames_nodup)

/-- One `generate_plots` call on a folder with pairwise-distinct filenames:
the `.png` files go away, then one plot per chart block is written up to
the first failing block; the return value counts every file left in the
folder, and the error is the first failing block, if any. -/
theorem generate_plots_run (d : Dataset) (fs : List PlotFile)
    (h : (fs.map PlotFile.name).Nodup) :
    generate_plots d fs =
      { fs := fs.filter (fun f => !(endsWithPng f.name)) ++
          mkFiles d (catalog.takeWhile (fun r => hasCols d r.reqCols)),
        ret := if ((catalog.dropWhile (fun r => hasCols d r.reqCols)).head?).isNone then
            some ((fs.filter (fun f => !(endsWithPng f.name))).length +
              (catalog.takeWhile (fun r => hasCols d r.reqCols)).length)
          else none,
        err := ((catalog.dropWhile (fun r => hasCols d r.reqCols)).head?).map
          (fun r => r.output) } := by
  have hclean : ∀ f ∈ fs.filter (fun f => !(endsWithPng f.name)),
      endsWithPng f.name = false := by
    intro f hf
    have := (List.mem_filter.mp hf).2
    cases hp : endsWithPng f.name
    · rfl
    · rw [hp] at this
      exact absurd this (by simp)
  have hfs : applyOps fs (generateOps d fs).1 =
      fs.filter (fun f => !(endsWithPng f.name)) ++
        mkFiles d (catalog.takeWhile (fun r => hasCols d r.reqCols)) := by
    show applyOps fs (clearOps fs ++ (recipeOps d catalog).1) = _
    rw [applyOps, List.foldl_append]
    show applyOps (applyOps fs (clearOps fs)) (recipeOps d catalog).1 = _
    rw [applyOps_clear fs h, recipeOps_eq]
    exact applyOps_writes d _ _
      (fresh_of_nonpng (List.takeWhile_sublist _) hclean)
      (nodup_sublist_names (List.takeWhile_sublist _))
  have herr : (generateOps d fs).2 =
      ((catalog.dropWhile (fun r => hasCols d r.reqCols)).head?).map
        (fun r => r.output) := by
    show (recipeOps d catalog).2 = _
    rw [recipeOps_eq]
  show ({ fs := applyOps fs (generateOps d fs).1,
          ret := if (generateOps d fs).2.isNone
            then some (applyOps fs (generateOps d fs).1).length else none,
          err := (generateOps d fs).2 } : GenResult) = _
  rw [hfs, herr]
  cases hd : (catalog.dropWhile (fun r => hasCols d r.reqCols)).head? with
  | none => simp [mkFiles]
  | some r => simp [mkFiles]

/-- On a valid dataset every block passes the column check. -/
theorem takeWhile_catalog_valid {d : Dataset} (hv : validDataset d) :
    catalog.takeWhile (fun r => hasCols d r.reqCols) = catalog :=
  List.takeWhile_eq_self_iff.mpr (fun _ hr => hasCols_of_valid hv hr)

/-- On a valid dataset no block fails the column check. -/
theorem dropWhile_catalog_valid {d : Dataset} (hv : validDataset d) :
    catalog.dropWhile (fun r => hasCols d r.reqCols) = [] :=
  List.dropWhile_eq_nil_iff.mpr (fun _ hr => hasCols_of_valid hv hr)

/-- `generate_plots` on a valid dataset and a folder with pairwise-distinct
filenames: every `.png` is removed, all 25 plots are written, the call
returns the total file count and raises nothing. -/
theorem generate_plots_valid (d : Dataset) (fs : List PlotFile)
    (hv : validDataset d) (h : (fs.map PlotFile.name).Nodup) :
    generate_plots d fs =
      { fs := fs.filter (fun f => !(endsWithPng f.name)) ++ mkFiles d catalog,
        ret := some ((fs.filter (fun f => !(endsWithPng f.name))).length + 25),
        err := none } := by
  rw [generate_plots_run d fs h, takeWhile_catalog_valid hv, dropWhile_catalog_valid hv]
  simp [catalog_length]

/-- `generate_plots` on a valid dataset and a folder with no `.png` file at
all: nothing is removed and the 25 plots are appended. -/
theorem generate_plots_nonpng (d : Dataset) (fs : List PlotFile)
    (hv : validDataset d) (hnp : ∀ f ∈ fs, endsWithPng f.name = false) :
    generate_plots d fs =
      { fs := fs ++ mkFiles d catalog,
        ret := some (fs.length + 25),
        err := none } := by
  have hfilter : fs.filter (fun f => endsWithPng f.name) = [] := by
    rw [List.filter_eq_nil_iff]
    intro f hf
    rw [hnp f hf]
    simp
  have hclear : clearOps fs = [] := by
    rw [clearOps, hfilter]
    rfl
  have hfs : applyOps fs (generateOps d fs).1 = fs ++ mkFiles d catalog := by
    show applyOps fs (clearOps fs ++ (recipeOps d catalog).1) = _
    rw [hclear, List.nil_append, recipeOps_eq, takeWhile_catalog_valid hv]
    exact applyOps_writes d _ _
      (fresh_of_nonpng (List.Sublist.refl catalog) hnp)
      (nodup_sublist_names (List.Sublist.refl catalog))
  have herr : (generateOps d fs).2 = none := by
    show (recipeOps d catalog).2 = _
    rw [recipeOps_eq, dropWhile_catalog_valid hv]
    rfl
  show ({ fs := applyOps fs (generateOps d fs).1,
          ret := if (generateOps d fs).2.isNone
            then some (applyOps fs (generateOps d fs).1).length else none,
          err := (generateOps d fs).2 } : GenResult) = _
  rw [hfs, herr]
  simp [mkFiles, catalog_length]

/-! ### Sorting and the `/charts` route -/

/-- Inserting grows the length by one. -/
theorem insertSorted_length (x : String) (l : List String) :
    (insertSorted x l).length = l.length + 1 := by
  induction l with
  | nil => rfl
  | cons y ys ih =>
    rw [insertSorted]
    cases h : strLe x y
    · simp [h, ih]
    · simp [h]

/-- Sorting preserves the length. -/
theorem sortStrings_length (l : List String) : (sortStrings l).length = l.length := by
  induction l with
  | nil => rfl
  | cons x xs ih =>
    rw [sortStrings, insertSorted_length, ih]
    rfl

/-- Sorting preserves emptiness. -/
theorem sortStrings_isEmpty (l : List String) : (sortStrings l).isEmpty = l.isEmpty := by
  cases l with
  | nil => rfl
  | cons x xs =>
    cases hs : sortStrings (x :: xs) with
    | nil =>
      have h1 := sortStrings_length (x :: xs)
      rw [hs] at h1
      exact absurd h1.symm (by simp)
    | cons a as => rfl

/-- The `/charts` route when the folder holds no `.png` and generation
succeeds: the new state, the sorted new `.png` list, and the raw return
value of `generate_plots`. -/
theorem eda_generates (df : Dataset) (fs : List PlotFile)
    (hempty : fs.filter (fun f => endsWithPng f.name) = [])
    (fs2 : List PlotFile) (n : ℕ)
    (hg : generate_plots df fs = { fs := fs2, ret := some n, err := none }) :
    eda ⟨df, fs⟩ = some (⟨df, fs2⟩,
      sortStrings ((fs2.filter (fun f => endsWithPng f.name)).map (fun f => f.name)), n) := by
  show (let plots := sortStrings ((fs.filter (fun f => endsWithPng f.name)).map
      (fun f => f.name));
    if plots.isEmpty then
      let g := generate_plots df fs
      match g.ret with
      | none => none
      | some num_plots =>
        let plots2 := sortStrings ((g.fs.filter (fun f => endsWithPng f.name)).map
          (fun f => f.name))
        some (({ df := df, fs := g.fs } : ProcState), plots2, num_plots)
    else some (⟨df, fs⟩, plots, plots.length)) = _
  rw [hempty, hg]
  rfl

/-- The `/charts` route when the folder already holds `.png` files:
generation is skipped and the existing files are reported as they are. -/
theorem eda_skips (df : Dataset) (fs : List PlotFile)
    (hne : fs.filter (fun f => endsWithPng f.name) ≠ []) :
    eda ⟨df, fs⟩ = some (⟨df, fs⟩,
      sortStrings ((fs.filter (fun f => endsWithPng f.name)).map (fun f => f.name)),
      (sortStrings ((fs.filter (fun f => endsWithPng f.name)).map (fun f => f.name))).length) := by
  have hb : (sortStrings ((fs.filter (fun f => endsWithPng f.name)).map
      (fun f => f.name))).isEmpty = false := by
    rw [sortStrings_isEmpty]
    cases hl : fs.filter (fun f => endsWithPng f.name) with
    | nil => exact absurd hl hne
    | cons a as => rfl
  show (let plots := sortStrings ((fs.filter (fun f => endsWithPng f.name)).map
      (fun f => f.name));
    if plots.isEmpty then
      let g := generate_plots df fs
      match g.ret with
      | none => none
      | some num_plots =>
        let plots2 := sortStrings ((g.fs.filter (fun f => endsWithPng f.name)).map
          (fun f => f.name))
        some (({ df := df, fs := g.fs } : ProcState), plots2, num_plots)
    else some (⟨df, fs⟩, plots, plots.length)) = _
  simp only [hb, Bool.false_eq_true, if_false]

/-! ### Claims -/

/-- C1 (counterexample): the synthetic replacement dataset generated when
the backing file is absent does not contain all the columns the chart
recipes require — `Level` and `Review_Count` are required by recipes of
the catalog but absent from the persisted synthetic dataset. -/
theorem C1_counterexample :
    "Level" ∈ requiredColumns ∧ "Review_Count" ∈ requiredColumns ∧
    "Level" ∉ (startupLoad 1000 none).1.columns ∧
    "Review_Count" ∉ (startupLoad 1000 none).1.columns := by
  decide

/-- C1 (amended): when the backing dataset file is absent, the synthetic
replacement that is generated and persisted has exactly the columns
`Category`, `Rating`, `Total_Earning`, `Gender`, `Language`, `Price`,
`Orders_Completed` and `Response_Time`; it has no `Level` and no
`Review_Count` column, so the chart recipes reading those two columns do
not find their required columns in it. -/
theorem C1_amended_claim :
    (startupLoad 1000 none).1.columns = sampleColumns ∧
    (startupLoad 1000 none).2 = some (sampleDataset 1000) ∧
    "Category" ∈ sampleColumns ∧ "Rating" ∈ sampleColumns ∧
    "Total_Earning" ∈ sampleColumns ∧ "Gender" ∈ sampleColumns ∧
    "Language" ∈ sampleColumns ∧ "Price" ∈ sampleColumns ∧
    "Orders_Completed" ∈ sampleColumns ∧ "Response_Time" ∈ sampleColumns ∧
    "Level" ∉ sampleColumns ∧ "Review_Count" ∉ sampleColumns ∧
    "Level" ∈ requiredColumns ∧ "Review_Count" ∈ requiredColumns := by
  refine ⟨rfl, rfl, ?_⟩
  decide

/-- C5: on the three-row dataset with categories Writing, Writing, Design,
ratings 4.0, 5.0, 3.5 and earnings 100.0, 200.0, 50.0, the home-page
metrics are 2 distinct categories, 350.0 total earnings and a mean rating
of 4.17 after rounding to two decimals. -/
theorem C5_claim :
    total_users d5 = some 2 ∧ total_earnings d5 = some 350 ∧
    avg_rating d5 = some (417 / 100) := by
  refine ⟨by decide, ?_, ?_⟩
  · simp [total_earnings, Dataset.col, d5, List.lookup, Value.toQ]
    norm_num
  · simp [avg_rating, Dataset.col, d5, List.lookup, Value.toQ, listMean, round2,
      roundHalfEven]
    norm_num [Int.fract]

/-- C6 (counterexample): for the one-row dataset with category value
`Writing` drawn from the closed set of categories consisting of `Writing`
and `Design`, the distinct-category count is 1, not the size 2 of the
closed set — the metric counts only the values actually present. -/
theorem C6_counterexample :
    ("Writing" ∈ (["Writing", "Design"] : List String)) ∧
    total_users (catDataset ["Writing"]) = some 1 ∧
    (["Writing", "Design"] : List String).dedup.length = 2 ∧
    total_users (catDataset ["Writing"]) ≠
      some (["Writing", "Design"] : List String).dedup.length := by
  decide

/-- C6 (amended): for any dataset whose `Category` values are drawn from a
closed set `C`, the distinct-category count equals the number of distinct
category values actually present; it is at most the size of `C`, it equals
the size of `C` exactly when every category of `C` occurs in the dataset,
and an empty dataset yields 0. -/
theorem C6_amended_claim (cs C : List String) (h : ∀ v ∈ cs, v ∈ C) :
    total_users (catDataset cs) = some cs.dedup.length ∧
    cs.dedup.length ≤ C.dedup.length ∧
    (cs = [] → total_users (catDataset cs) = some 0) ∧
    ((∀ c ∈ C, c ∈ cs) → cs.dedup.length = C.dedup.length) := by
  have hinj : Function.Injective Value.str := by
    intro a b hab
    injection hab
  have h1 : total_users (catDataset cs) = some (nuniqueVals (cs.map Value.str)) := rfl
  have h2 : nuniqueVals (cs.map Value.str) = cs.dedup.length := by
    rw [nuniqueVals, List.dedup_map_of_injective hinj, List.length_map]
  refine ⟨h1.trans (congrArg some h2), ?_, ?_, ?_⟩
  · calc cs.dedup.length = cs.toFinset.card := (List.card_toFinset cs).symm
      _ ≤ C.toFinset.card := Finset.card_le_card
          (fun x hx => List.mem_toFinset.mpr (h x (List.mem_toFinset.mp hx)))
      _ = C.dedup.length := List.card_toFinset C
  · intro hnil
    rw [h1, h2, hnil]
    rfl
  · intro hback
    have : cs.toFinset = C.toFinset := Finset.Subset.antisymm
      (fun x hx => List.mem_toFinset.mpr (h x (List.mem_toFinset.mp hx)))
      (fun x hx => List.mem_toFinset.mpr (hback x (List.mem_toFinset.mp hx)))
    rw [← List.card_toFinset, ← List.card_toFinset, this]

/-- C6 (witness): the amended statement applied to the concrete dataset
with categories a, b, a drawn from the closed set consisting of a and b. -/
theorem C6_witness :
    total_users (catDataset ["a", "b", "a"]) =
      some (["a", "b", "a"] : List String).dedup.length :=
  (C6_amended_claim ["a", "b", "a"] ["a", "b"] (by decide)).1

/-- C7: if the backing dataset file is absent at process start, a synthetic
dataset of the configured size is generated by a fixed deterministic
procedure and persisted to the same path — the missing file is healed, not
an error, and any two cold starts from a missing file persist the very same
dataset, namely `sampleDataset sample_size`. -/
theorem C7_claim (sample_size : ℕ) :
    startupLoad sample_size none =
      (sampleDataset sample_size, some (sampleDataset sample_size)) ∧
    (sampleDataset sample_size).nRows = sample_size ∧
    (sampleDataset sample_size).columns = sampleColumns := by
  refine ⟨rfl, ?_, rfl⟩
  simp [Dataset.nRows, sampleDataset, sample_data]

/-- C8: neither the home-page metrics nor the chart-generation route ever
changes the in-memory dataset: whenever a request completes, the dataset in
the resulting process state is the one the request started from. -/
theorem C8_claim (s : ProcState) :
    ((home s).map (fun r => r.1.df)) = ((home s).map (fun _ => s.df)) ∧
    ((eda s).map (fun r => r.1.df)) = ((eda s).map (fun _ => s.df)) := by
  constructor
  · rw [home]
    cases total_users s.df <;> cases total_earnings s.df <;> cases avg_rating s.df <;> rfl
  · rw [eda]
    split
    · simp only []
      cases (generate_plots s.df s.fs).ret <;> rfl
    · rfl

/-- C2 (counterexample): on the dataset with every required column except
`Level`, running generation on an empty folder does not lose exactly one
artifact: the batch aborts at the first chart block reading `Level`, only
the 6 artifacts before it are produced, and 19 of the 25 are absent —
among them `reviews_by_rating.png`, whose own columns are all present. -/
theorem C2_counterexample :
    (generate_plots dNoLevel []).ret = none ∧
    (generate_plots dNoLevel []).fs.length = 6 ∧
    catalog.length = 25 ∧
    "reviews_by_rating.png" ∈ catalogNames ∧
    "reviews_by_rating.png" ∉ (generate_plots dNoLevel []).fs.map PlotFile.name ∧
    ¬(catalog.length - (generate_plots dNoLevel []).fs.length = 1) := by
  decide

/-- C2 (amended): for every dataset from which exactly one required column
has been removed, generation on an empty folder aborts with an unhandled
error at the first chart block reading the missing column: exactly the
blocks before it produce their artifact, every block from it on produces
none, so at least 12 of the 25 artifacts are absent — a missing column is
fatal to the batch, not isolated to one recipe. -/
theorem C2_amended_claim (d : Dataset) (m : String)
    (hm : m ∈ requiredColumns) (hmiss : m ∉ d.columns)
    (hrest : ∀ c ∈ requiredColumns, c ≠ m → c ∈ d.columns) :
    (generate_plots d []).ret = none ∧
    (generate_plots d []).fs =
      mkFiles d (catalog.takeWhile (fun r => !(r.reqCols.contains m))) ∧
    (generate_plots d []).fs.length + 12 ≤ catalog.length := by
  have hpt : ∀ r ∈ catalog, (hasCols d r.reqCols) = !(r.reqCols.contains m) := by
    intro r hr
    have hsub := List.all_eq_true.mp catalog_reqCols_sub r hr
    cases hc : r.reqCols.contains m with
    | true =>
      have hmem : m ∈ r.reqCols := by simpa [List.contains, List.elem_iff] using hc
      simp only [Bool.not_true]
      cases hall : hasCols d r.reqCols with
      | false => rfl
      | true =>
        rw [hasCols, List.all_eq_true] at hall
        have := hall m hmem
        have : m ∈ d.columns := by simpa [List.contains, List.elem_iff] using this
        exact absurd this hmiss
    | false =>
      have hnmem : m ∉ r.reqCols := by
        intro hmem
        have hct : r.reqCols.contains m = true := by
          simpa [List.contains, List.elem_iff] using hmem
        rw [hct] at hc
        exact Bool.true_eq_false.mp hc
      simp only [Bool.not_false]
      rw [hasCols, List.all_eq_true]
      intro c hcin
      have hcr : c ∈ requiredColumns := by
        have := List.all_eq_true.mp hsub c hcin
        simpa [List.contains, List.elem_iff] using this
      have hne : c ≠ m := fun heq => hnmem (heq ▸ hcin)
      have := hrest c hcr hne
      simpa [List.contains, List.elem_iff] using this
  have htw : catalog.takeWhile (fun r => hasCols d r.reqCols) =
      catalog.takeWhile (fun r => !(r.reqCols.contains m)) := takeWhile_congr hpt
  have hdw : catalog.dropWhile (fun r => hasCols d r.reqCols) =
      catalog.dropWhile (fun r => !(r.reqCols.contains m)) := dropWhile_congr hpt
  have hdw_ne : catalog.dropWhile (fun r => !(r.reqCols.contains m)) ≠ [] := by
    intro hnil
    have hall := List.dropWhile_eq_nil_iff.mp hnil
    have hcov := List.all_eq_true.mp catalog_covers m hm
    rw [List.any_eq_true] at hcov
    obtain ⟨r, hr, hrc⟩ := hcov
    have := hall r hr
    rw [hrc] at this
    simp at this
  have hrun := generate_plots_run d [] (by simp)
  have hfs : (generate_plots d []).fs =
      mkFiles d (catalog.takeWhile (fun r => !(r.reqCols.contains m))) := by
    rw [hrun, htw]
    simp
  have hret : (generate_plots d []).ret = none := by
    rw [hrun]
    cases hh : (catalog.dropWhile (fun r => hasCols d r.reqCols)).head? with
    | some r => simp [hh]
    | none =>
      rw [List.head?_eq_none_iff] at hh
      rw [hdw] at hh
      exact absurd hh hdw_ne
  refine ⟨hret, hfs, ?_⟩
  rw [hfs, mkFiles, List.length_map]
  have hm2 : m = "Rating" ∨ m = "Total_Earning" ∨ m = "Gender" ∨ m = "Price" ∨
      m = "Review_Count" ∨ m = "Level" ∨ m = "Category" := by
    simpa [requiredColumns] using hm
  rcases hm2 with rfl | rfl | rfl | rfl | rfl | rfl | rfl <;> decide

/-- C2 (witness): the amended statement applied to the dataset missing
exactly the `Level` column. -/
theorem C2_witness :
    "Level" ∈ requiredColumns ∧ "Level" ∉ dNoLevel.columns ∧
    (generate_plots dNoLevel []).ret = none :=
  ⟨by decide, by decide,
    (C2_amended_claim dNoLevel "Level" (by decide) (by decide) (by decide)).1⟩

/-- C3: generation is idempotent at the `/charts` route: on an empty plot
folder the route generates and reports the 25 catalog artifacts, and a
second request on the now-populated folder skips generation, leaves every
file exactly as it was, and reports the same sorted artifact filename list
with the same count. -/
theorem C3_claim (d : Dataset) (hv : validDataset d) :
    eda ⟨d, []⟩ = some (⟨d, mkFiles d catalog⟩, sortStrings catalogNames, 25) ∧
    eda ⟨d, mkFiles d catalog⟩ =
      some (⟨d, mkFiles d catalog⟩, sortStrings catalogNames, 25) := by
  have hplots : ((mkFiles d catalog).filter (fun f => endsWithPng f.name)).map
      (fun f => f.name) = catalogNames := by
    rw [mkFiles_catalog_png]
    exact mkFiles_names d catalog
  constructor
  · have hg := generate_plots_nonpng d [] hv (by intro f hf; cases hf)
    have hg2 : generate_plots d [] =
        { fs := mkFiles d catalog, ret := some 25, err := none } := by
      simpa using hg
    rw [eda_generates d [] rfl (mkFiles d catalog) 25 hg2, hplots]
  · have hne : (mkFiles d catalog).filter (fun f => endsWithPng f.name) ≠ [] := by
      rw [mkFiles_catalog_png]
      simp [mkFiles, catalog]
    rw [eda_skips d (mkFiles d catalog) hne, hplots, sortStrings_length,
      catalogNames_length]

/-- C3 (witness): the idempotence statement applied to the minimal valid
dataset. -/
theorem C3_witness :
    validDataset dValid ∧
    eda ⟨dValid, []⟩ =
      some (⟨dValid, mkFiles dValid catalog⟩, sortStrings catalogNames, 25) :=
  ⟨by decide, (C3_claim dValid (by decide)).1⟩

/-- C4: on a valid dataset and an empty folder, generation produces exactly
the fixed catalog's artifact set: the folder afterwards holds precisely the
25 catalog files, their names are the 25 pairwise-distinct catalog names
and nothing else, and the call reports 25 files. -/
theorem C4_claim (d : Dataset) (hv : validDataset d) :
    (generate_plots d []).fs = mkFiles d catalog ∧
    (generate_plots d []).fs.map PlotFile.name = catalogNames ∧
    catalogNames.Nodup ∧ catalogNames.length = 25 ∧
    (generate_plots d []).ret = some 25 := by
  have hg := generate_plots_nonpng d [] hv (by intro f hf; cases hf)
  have hg2 : generate_plots d [] =
      { fs := mkFiles d catalog, ret := some 25, err := none } := by
    simpa using hg
  refine ⟨by rw [hg2], ?_, catalogNames_nodup, catalogNames_length, by rw [hg2]⟩
  rw [hg2]
  exact mkFiles_names d catalog

/-- C4 (witness): the exact-catalog statement applied to the minimal valid
dataset. -/
theorem C4_witness :
    validDataset dValid ∧
    (generate_plots dValid []).fs.map PlotFile.name = catalogNames :=
  ⟨by decide, (C4_claim dValid (by decide)).2.1⟩

/-- A plot folder holding one stale artifact and one non-image file. -/
def wfs : List PlotFile :=
  [⟨"old.png", Content.other "o"⟩, ⟨"notes.txt", Content.other "n"⟩]

/-- C9: every `generate_plots` invocation first deletes every `.png` file
of the folder — all the removals stand before any write in its operation
trace — while files with other extensions survive with their contents
untouched; and a direct second call removes and rewrites all 25 artifact
files rather than leaving them unmodified. -/
theorem C9_claim (d : Dataset) (fs : List PlotFile)
    (hnod : (fs.map PlotFile.name).Nodup) (hv : validDataset d) :
    (generateOps d fs).1 =
      ((fs.filter (fun f => endsWithPng f.name)).map (fun f => FsOp.remove f.name)) ++
        (catalog.map (fun r => FsOp.write r.output (Content.plot r.output d))) ∧
    (∀ f ∈ fs, endsWithPng f.name = false → f ∈ (generate_plots d fs).fs) ∧
    (generateOps d (generate_plots d fs).fs).1 =
      ((mkFiles d catalog).map (fun f => FsOp.remove f.name)) ++
        (catalog.map (fun r => FsOp.write r.output (Content.plot r.output d))) := by
  have hw : (recipeOps d catalog).1 =
      catalog.map (fun r => FsOp.write r.output (Content.plot r.output d)) := by
    rw [recipeOps_eq, takeWhile_catalog_valid hv]
  have hgfs : (generate_plots d fs).fs =
      fs.filter (fun f => !(endsWithPng f.name)) ++ mkFiles d catalog := by
    rw [generate_plots_valid d fs hv hnod]
  refine ⟨?_, ?_, ?_⟩
  · show clearOps fs ++ (recipeOps d catalog).1 = _
    rw [hw, clearOps]
  · intro f hf hp
    rw [hgfs]
    refine List.mem_append_left _ (List.mem_filter.mpr ⟨hf, ?_⟩)
    rw [hp]
    rfl
  · rw [hgfs]
    show clearOps _ ++ (recipeOps d catalog).1 = _
    rw [hw]
    congr 1
    rw [clearOps, List.filter_append]
    have h1 : (fs.filter (fun f => !(endsWithPng f.name))).filter
        (fun f => endsWithPng f.name) = [] := by
      rw [List.filter_filter, List.filter_eq_nil_iff]
      intro f _
      cases endsWithPng f.name <;> simp
    rw [h1, mkFiles_catalog_png, List.nil_append]

/-- C9 (witness): the statement applied to the minimal valid dataset and a
folder holding one stale artifact and one text file; the text file is still
there after the run. -/
theorem C9_witness :
    (wfs.map PlotFile.name).Nodup ∧ validDataset dValid ∧
    (⟨"notes.txt", Content.other "n"⟩ : PlotFile) ∈ (generate_plots dValid wfs).fs :=
  ⟨by decide, by decide,
    (C9_claim dValid wfs (by decide) (by decide)).2.1
      ⟨"notes.txt", Content.other "n"⟩ (by decide) (by decide)⟩

/-- C10: the value returned by `generate_plots` counts every file of the
folder whatever its extension; so on a folder holding only non-image files
the first `/charts` request reports that total (the non-image count plus
25), while the repeat request, which counts only the `.png` files, reports
25 — the two counts differ whenever a non-image file is present. -/
theorem C10_claim (d : Dataset) (fs : List PlotFile)
    (hv : validDataset d) (hnp : ∀ f ∈ fs, endsWithPng f.name = false) :
    eda ⟨d, fs⟩ = some (⟨d, fs ++ mkFiles d catalog⟩, sortStrings catalogNames,
      fs.length + 25) ∧
    eda ⟨d, fs ++ mkFiles d catalog⟩ =
      some (⟨d, fs ++ mkFiles d catalog⟩, sortStrings catalogNames, 25) ∧
    (fs ≠ [] → fs.length + 25 ≠ 25) := by
  have hfilter : fs.filter (fun f => endsWithPng f.name) = [] := by
    rw [List.filter_eq_nil_iff]
    intro f hf
    rw [hnp f hf]
    simp
  have happ : (fs ++ mkFiles d catalog).filter (fun f => endsWithPng f.name) =
      mkFiles d catalog := by
    rw [List.filter_append, hfilter, mkFiles_catalog_png, List.nil_append]
  have hnames : (mkFiles d catalog).map (fun f => f.name) = catalogNames :=
    mkFiles_names d catalog
  refine ⟨?_, ?_, ?_⟩
  · have hg := generate_plots_nonpng d fs hv hnp
    rw [eda_generates d fs hfilter (fs ++ mkFiles d catalog) (fs.length + 25) hg,
      happ, hnames]
  · have hne : (fs ++ mkFiles d catalog).filter (fun f => endsWithPng f.name) ≠ [] := by
      rw [happ]
      simp [mkFiles, catalog]
    rw [eda_skips d _ hne, happ, hnames, sortStrings_length, catalogNames_length]
  · intro hne hc
    have h0 : fs.length = 0 := by omega
    exact hne (List.length_eq_zero.mp h0)

/-- C10 (witness): with one non-image file in the folder, the first request
reports 26 while the repeated request reports 25. -/
theorem C10_witness :
    validDataset dValid ∧
    (([⟨"notes.txt", Content.other "n"⟩] : List PlotFile)) ≠ [] ∧
    (([⟨"notes.txt", Content.other "n"⟩] : List PlotFile).length + 25 ≠ 25) :=
  ⟨by decide, by decide,
    (C10_claim dValid [⟨"notes.txt", Content.other "n"⟩] (by decide)
      (by decide)).2.2 (by decide)⟩

/-- C7 (witness): the statement at the source's configured size 1000. -/
theorem C7_witness :
    startupLoad 1000 none = (sampleDataset 1000, some (sampleDataset 1000)) :=
  (C7_claim 1000).1

/-- C8 (witness): the statement at a concrete process state. -/
theorem C8_witness :
    ((home ⟨d5, []⟩).map (fun r => r.1.df)) =
      ((home ⟨d5, []⟩).map (fun _ => (⟨d5, []⟩ : ProcState).df)) :=
  (C8_claim ⟨d5, []⟩).1
